import Mathlib

/-!
Verification development for the kubectl-enhanced-cli decision engine.

The Lean definitions below are a shallow embedding of the Go sources:
  * src/pkg/rbac/rbac.go       — action classification and policy evaluation
  * src/unnamed/part_002       — configuration model and rule resolution (pkg/config)
  * src/unnamed/part_003       — the top-level decision flow of main
Go strings are Lean `String`s, Go slices are Lean `List`s, and Go maps are
association lists `List (key × value)` whose list order stands for one
possible iteration order of the (unordered) Go map.
-/

/-! ## Action constants (src/pkg/rbac/rbac.go:10-22) -/

def ActionDelete : String := "delete"

def ActionDrain : String := "drain"

def ActionCordon : String := "cordon"

def ActionScale : String := "scale"

def ActionEdit : String := "edit"

def ActionPatch : String := "patch"

def ActionApply : String := "apply"

def ActionCreate : String := "create"

def ActionExec : String := "exec"

def ActionRollout : String := "rollout"

def ActionUnknown : String := "unknown"

/-- DestructiveActions (src/pkg/rbac/rbac.go:25-37): the Go map literal from
kubectl command verbs to their action type, as an association list in the
source's literal order. -/
def DestructiveActions : List (String × String) :=
  [("delete", ActionDelete),
   ("drain", ActionDrain),
   ("cordon", ActionCordon),
   ("uncordon", ActionCordon),
   ("scale", ActionScale),
   ("edit", ActionEdit),
   ("patch", ActionPatch),
   ("apply", ActionApply),
   ("create", ActionCreate),
   ("exec", ActionExec),
   ("rollout", ActionRollout)]

/-- flagsWithValues (src/pkg/rbac/rbac.go:40-64): flags whose next argument is
a value, not a command. -/
def flagsWithValues : List String :=
  ["-n", "--namespace", "-l", "--selector", "-o", "--output", "-f", "--filename",
   "--context", "--kubeconfig", "--cluster", "--user", "-c", "--container",
   "--field-selector", "--sort-by", "--template", "-p", "--patch", "--type",
   "--replicas", "--timeout", "--grace-period"]

/-- Lookup in a Go-map-as-association-list (`m[k]` with the `ok` flag). -/
def lookupList (m : List (String × String)) (k : String) : Option String :=
  (m.find? (fun kv => kv.1 == k)).map (fun kv => kv.2)

/-- One step/state of the scanning loop of DetectAction
(src/pkg/rbac/rbac.go:67-106).  The Bool argument is the loop's `skipNext`
state; `strings.HasPrefix` is rendered as `List.isPrefixOf` on the character
data and `strings.Contains(arg, "=")` as `List.contains`. -/
def detectActionGo : Bool → List String → String
  | _, [] => ActionUnknown
  | true, _ :: rest => detectActionGo false rest
  | false, arg :: rest =>
    if ['-', '-'].isPrefixOf arg.data && arg.data.contains '=' then
      detectActionGo false rest
    else if ['-'].isPrefixOf arg.data then
      detectActionGo (flagsWithValues.contains arg) rest
    else
      match lookupList DestructiveActions arg with
      | some a => a
      | none => arg

/-- DetectAction (src/pkg/rbac/rbac.go:67): analyzes kubectl arguments and
returns the action type.  (The Go function returns `unknown` for an empty
slice up front; the scan returns the same value, so the guard is absorbed.) -/
def detectAction (args : List String) : String :=
  detectActionGo false args

/-- The first non-flag token of an argument vector under the same scan as
DetectAction: value-consuming flags skip their value token, a token of the
form --flag=value is skipped as a unit, and other `-`-prefixed tokens are
skipped individually.  This is the specification-side notion used to state
the classifier claims. -/
def firstNonFlagToken : Bool → List String → Option String
  | _, [] => none
  | true, _ :: rest => firstNonFlagToken false rest
  | false, arg :: rest =>
    if ['-', '-'].isPrefixOf arg.data && arg.data.contains '=' then
      firstNonFlagToken false rest
    else if ['-'].isPrefixOf arg.data then
      firstNonFlagToken (flagsWithValues.contains arg) rest
    else
      some arg

/-! ## Policy evaluation (src/pkg/rbac/rbac.go:108-203) -/

/-- Model of Go strings.ToLower as used on the ASCII action/rule tokens:
lower-case each character. -/
def toLower (s : String) : String :=
  ⟨s.data.map Char.toLower⟩

/-- matchAction (src/pkg/rbac/rbac.go:130-159): case-insensitive exact match
plus the alias switch.  The Go switch is rendered as an if-chain (its cases
are mutually exclusive string literals, so order is immaterial), and Go's
`==` on strings as `decide` of propositional equality. -/
def matchAction (rule action : String) : Bool :=
  let r := toLower rule
  let a := toLower action
  if r = a then true
  else if r = ActionDrain then decide (a = ActionDrain) || decide (a = ActionCordon)
  else if r = ActionDelete then decide (a = ActionDelete)
  else if r = ActionScale then decide (a = ActionScale)
  else if r = ActionEdit then decide (a = ActionEdit) || decide (a = ActionPatch)
  else if r = ActionApply then decide (a = ActionApply) || decide (a = ActionCreate)
  else if r = ActionExec then decide (a = ActionExec)
  else if r = ActionRollout then decide (a = ActionRollout)
  else false

/-- ResolvedRules (src/unnamed/part_002:39-43): the final resolved rules for a
cluster. -/
structure ResolvedRules where
  tier : String
  requireConfirmation : List String
  blockedActions : List String
deriving DecidableEq

/-- IsBlocked (src/pkg/rbac/rbac.go:109-116): the Go loop with early return is
rendered as List.any. -/
def isBlocked (action : String) (rules : ResolvedRules) : Bool :=
  rules.blockedActions.any (fun blocked => matchAction blocked action)

/-- RequiresConfirmation (src/pkg/rbac/rbac.go:119-126). -/
def requiresConfirmation (action : String) (rules : ResolvedRules) : Bool :=
  rules.requireConfirmation.any (fun confirm => matchAction confirm action)

/-- GetActionSeverity (src/pkg/rbac/rbac.go:162-175): the Go switch with
multi-value cases as an if-chain in source order. -/
def getActionSeverity (action : String) : String :=
  if action = ActionDelete ∨ action = ActionDrain then "high"
  else if action = ActionScale ∨ action = ActionCordon then "medium"
  else if action = ActionEdit ∨ action = ActionPatch ∨ action = ActionRollout then "medium"
  else if action = ActionApply ∨ action = ActionCreate then "low"
  else "none"

/-- DescribeAction (src/pkg/rbac/rbac.go:178-203). -/
def describeAction (action : String) : String :=
  if action = ActionDelete then "Delete resources"
  else if action = ActionDrain then "Drain node (evict all pods)"
  else if action = ActionCordon then "Cordon/uncordon node"
  else if action = ActionScale then "Scale deployment replicas"
  else if action = ActionEdit then "Edit resource configuration"
  else if action = ActionPatch then "Patch resource"
  else if action = ActionApply then "Apply configuration"
  else if action = ActionCreate then "Create resource"
  else if action = ActionExec then "Execute command in pod"
  else if action = ActionRollout then "Manage rollout"
  else action

/-! ## Configuration data model (src/unnamed/part_002:11-43) -/

/-- DefaultsConfig (src/unnamed/part_002:19-22). -/
structure DefaultsConfig where
  requireConfirmation : Bool
  blockedActions : List String
deriving DecidableEq

/-- ClusterRules (src/unnamed/part_002:25-29). -/
structure ClusterRules where
  tier : String
  requireConfirmation : List String
  blockedActions : List String
deriving DecidableEq

/-- TierConfig (src/unnamed/part_002:32-36). -/
structure TierConfig where
  patterns : List String
  requireConfirmation : List String
  blockedActions : List String
deriving DecidableEq

/-- Config (src/unnamed/part_002:12-16).  The Go maps `clusters` and `tiers`
are modelled as association lists; the list order represents one possible
iteration order of the unordered Go map. -/
structure Config where
  defaults : DefaultsConfig
  clusters : List (String × ClusterRules)
  tiers : List (String × TierConfig)
deriving DecidableEq

/-! ## Pattern matching model

matchGlob (src/unnamed/part_002:157-167) delegates to two external libraries:
github.com/gobwas/glob (Compile/Match) and, when compilation fails, Go's
path/filepath.Match with the error discarded.  The definitions below model
those libraries on the glob dialect they document: literals, `*`, `?`,
character classes in square brackets, alternation groups (terms between
\x7b and \x7d separated by commas), and backslash escapes.  Compilation
failure (an Option none) corresponds to the libraries' pattern errors:
unterminated classes or groups, a stray terms-close character, or a
trailing backslash. -/

/-- AST of a compiled gobwas/glob pattern (no separator characters are passed
by matchGlob, so `*` and `**` both match an arbitrary run). -/
inductive GPat where
  | nil : GPat
  | star (rest : GPat) : GPat
  | one (rest : GPat) : GPat
  | cls (negated : Bool) (ranges : List (Char × Char)) (rest : GPat) : GPat
  | lit (c : Char) (rest : GPat) : GPat
  | alt (alts : List GPat) (rest : GPat) : GPat

/-- Character-class membership. -/
def classContains (negated : Bool) (ranges : List (Char × Char)) (c : Char) : Bool :=
  let inR := ranges.any (fun r => decide (r.1 ≤ c) && decide (c ≤ r.2))
  if negated then !inR else inR

/-- Items of a character class after the opening bracket: single characters
or lo-hi ranges, terminated by a closing bracket; none on malformed input. -/
def parseClsItems : List Char → Option (List (Char × Char) × List Char)
  | [] => none
  | ']' :: rest => some ([], rest)
  | c :: '-' :: hi :: rest =>
    if hi = ']' then none
    else (parseClsItems rest).map (fun pr => ((c, hi) :: pr.1, pr.2))
  | c :: rest => (parseClsItems rest).map (fun pr => ((c, c) :: pr.1, pr.2))

/-- A full character class after the opening bracket: optional negation mark,
then at least one item. -/
def parseCls (cs : List Char) : Option (Bool × List (Char × Char) × List Char) :=
  match cs with
  | '!' :: rest =>
    match parseClsItems rest with
    | none => none
    | some ([], _) => none
    | some (rs, rest') => some (true, rs, rest')
  | _ =>
    match parseClsItems cs with
    | none => none
    | some ([], _) => none
    | some (rs, rest') => some (false, rs, rest')

/-- Skip over a bracketed character class while scanning an alternation
group, copying its characters verbatim; none if the class never closes. -/
def skipCls : List Char → Option (List Char × List Char)
  | [] => none
  | ']' :: rest => some ([']'], rest)
  | c :: rest => (skipCls rest).map (fun pr => (c :: pr.1, pr.2))

/-- Split the body of an alternation group (after the opening terms
character) into its comma-separated alternatives, honouring nested groups,
classes and escapes; returns the alternatives and the input after the
closing terms character, or none if the group never closes.  Fuelled for
structural recursion; call sites supply fuel larger than the input length. -/
def splitTerms : Nat → List Char → Nat → List Char → List (List Char) →
    Option (List (List Char) × List Char)
  | 0, _, _, _, _ => none
  | _ + 1, [], _, _, _ => none
  | fuel + 1, c :: rest, depth, cur, acc =>
    if c = '\x7d' then
      if depth = 0 then some ((cur.reverse :: acc).reverse, rest)
      else splitTerms fuel rest (depth - 1) (c :: cur) acc
    else if c = '\x7b' then
      splitTerms fuel rest (depth + 1) (c :: cur) acc
    else if c = ',' && depth = 0 then
      splitTerms fuel rest depth [] (cur.reverse :: acc)
    else if c = '[' then
      match skipCls rest with
      | none => none
      | some (body, rest') => splitTerms fuel rest' depth (body.reverse ++ '[' :: cur) acc
    else if c = '\\' then
      match rest with
      | [] => none
      | d :: rest' => splitTerms fuel rest' depth (d :: '\\' :: cur) acc
    else
      splitTerms fuel rest depth (c :: cur) acc

/-- Fuelled recursive-descent parser for the glob dialect; the fuel only
bounds the recursion depth and is chosen larger than the input length at
every call site. -/
def parseSeq : Nat → List Char → Option GPat
  | 0, _ => none
  | _ + 1, [] => some GPat.nil
  | fuel + 1, c :: rest =>
    if c = '*' then (parseSeq fuel rest).map GPat.star
    else if c = '?' then (parseSeq fuel rest).map GPat.one
    else if c = '\x7d' then none
    else if c = '\x7b' then
      match splitTerms (rest.length + 1) rest 0 [] [] with
      | none => none
      | some (altStrs, rest') =>
        match altStrs.mapM (parseSeq fuel), parseSeq fuel rest' with
        | some alts, some p => some (GPat.alt alts p)
        | _, _ => none
    else if c = '[' then
      match parseCls rest with
      | none => none
      | some (neg, ranges, rest') => (parseSeq fuel rest').map (GPat.cls neg ranges)
    else if c = '\\' then
      match rest with
      | [] => none
      | d :: rest' => (parseSeq fuel rest').map (GPat.lit d)
    else
      (parseSeq fuel rest).map (GPat.lit c)

/-- Model of gobwas/glob Compile: none models a compilation error. -/
def globCompile (pattern : String) : Option GPat :=
  parseSeq (pattern.data.length + 1) pattern.data

/-- All possible remainders of the input after the pattern matched some
prefix; fuelled (the fuel bounds the pattern-structure depth). -/
def residuals : Nat → GPat → List Char → List (List Char)
  | 0, _, _ => []
  | _ + 1, GPat.nil, s => [s]
  | fuel + 1, GPat.star p, s => s.tails.flatMap (residuals fuel p)
  | _ + 1, GPat.one _, [] => []
  | fuel + 1, GPat.one p, _ :: s => residuals fuel p s
  | _ + 1, GPat.cls _ _ _, [] => []
  | fuel + 1, GPat.cls neg ranges p, c :: s =>
    if classContains neg ranges c then residuals fuel p s else []
  | _ + 1, GPat.lit _ _, [] => []
  | fuel + 1, GPat.lit c p, d :: s => if c = d then residuals fuel p s else []
  | fuel + 1, GPat.alt alts p, s =>
    (alts.flatMap (fun a => residuals fuel a s)).flatMap (residuals fuel p)

/-- Model of gobwas/glob Match: the compiled pattern consumes the entire
input. -/
def globMatch (fuel : Nat) (g : GPat) (s : List Char) : Bool :=
  (residuals fuel g s).any List.isEmpty

/-- Model of Go's getEsc helper inside path/filepath.Match class parsing:
reads one (possibly escaped) class character; none models ErrBadPattern. -/
def fpGetEsc : List Char → Option (Char × List Char)
  | [] => none
  | '-' :: _ => none
  | ']' :: _ => none
  | '\\' :: [] => none
  | '\\' :: c :: rest => some (c, rest)
  | c :: rest => some (c, rest)

/-- Model of the class-parsing loop of path/filepath.Match: one or more
lo-hi ranges (a single character is a degenerate range), closed by a
closing bracket; none models ErrBadPattern. -/
def fpClassLoop : Nat → List Char → Option (List (Char × Char) × List Char)
  | 0, _ => none
  | fuel + 1, cs =>
    match fpGetEsc cs with
    | none => none
    | some (lo, cs1) =>
      match cs1 with
      | '-' :: cs2 =>
        match fpGetEsc cs2 with
        | none => none
        | some (hi, cs3) =>
          match cs3 with
          | ']' :: cs4 => some ([(lo, hi)], cs4)
          | _ =>
            match fpClassLoop fuel cs3 with
            | none => none
            | some (rs, rest) => some ((lo, hi) :: rs, rest)
      | ']' :: cs2 => some ([(lo, lo)], cs2)
      | _ =>
        match fpClassLoop fuel cs1 with
        | none => none
        | some (rs, rest) => some ((lo, lo) :: rs, rest)

/-- Range membership for the filepath.Match model. -/
def fpInRanges (negated : Bool) (ranges : List (Char × Char)) (c : Char) : Bool :=
  let inR := ranges.any (fun r => decide (r.1 ≤ c) && decide (c ≤ r.2))
  if negated then !inR else inR

/-- Model of Go path/filepath.Match on Unix (separator '/'): some b is a
normal result, none models ErrBadPattern.  `*` matches any run of
non-separator characters, `?` one non-separator character; fuelled for
structural recursion, with fuel larger than pattern length plus name
length at every call site. -/
def fpMatch : Nat → List Char → List Char → Option Bool
  | 0, _, _ => none
  | _ + 1, [], [] => some true
  | _ + 1, [], _ :: _ => some false
  | fuel + 1, '*' :: p, s =>
    match fpMatch fuel p s with
    | none => none
    | some true => some true
    | some false =>
      match s with
      | [] => some false
      | c :: s' => if c = '/' then some false else fpMatch fuel ('*' :: p) s'
  | fuel + 1, '?' :: p, s =>
    match s with
    | [] => some false
    | c :: s' => if c = '/' then some false else fpMatch fuel p s'
  | fuel + 1, '[' :: p, s =>
    match (match p with
           | '^' :: p1 => (true, p1)
           | _ => (false, p)) with
    | (neg, p1) =>
      match fpClassLoop (p1.length + 1) p1 with
      | none => none
      | some (ranges, p2) =>
        match s with
        | [] => some false
        | c :: s' => if fpInRanges neg ranges c then fpMatch fuel p2 s' else some false
  | fuel + 1, '\\' :: p, s =>
    match p with
    | [] => none
    | c :: p' =>
      match s with
      | [] => some false
      | d :: s' => if c = d then fpMatch fuel p' s' else some false
  | fuel + 1, c :: p, s =>
    match s with
    | [] => some false
    | d :: s' => if c = d then fpMatch fuel p s' else some false

/-- Model of the fallback call `filepath.Match(pattern, str)` in matchGlob
(src/unnamed/part_002:163). -/
def filepathMatch (pattern str : String) : Option Bool :=
  fpMatch (pattern.data.length + str.data.length + 1) pattern.data str.data

/-- matchGlob (src/unnamed/part_002:158-167): compile and match with the
glob library; on compilation failure fall back to filepath.Match with the
error discarded (a failed fallback therefore reports false). -/
def matchGlob (pattern str : String) : Bool :=
  match globCompile pattern with
  | some g => globMatch (pattern.data.length + 2) g str.data
  | none => (filepathMatch pattern str).getD false

/-! ## Rule resolution (src/unnamed/part_002:109-155) -/

/-- GetClusterRules (src/unnamed/part_002:109-155): exact cluster match,
then glob cluster match, then tier patterns, then defaults.  The two map
iterations of the Go code walk the association lists in list order. -/
def getClusterRules (c : Config) (context : String) : ResolvedRules :=
  match c.clusters.find? (fun kv => kv.1 == context) with
  | some kv =>
    { tier := kv.2.tier
      requireConfirmation := kv.2.requireConfirmation
      blockedActions := kv.2.blockedActions }
  | none =>
    match c.clusters.find? (fun kv => matchGlob kv.1 context) with
    | some kv =>
      { tier := kv.2.tier
        requireConfirmation := kv.2.requireConfirmation
        blockedActions := kv.2.blockedActions }
    | none =>
      match c.tiers.find? (fun kv => kv.2.patterns.any (fun p => matchGlob p context)) with
      | some kv =>
        { tier := kv.1
          requireConfirmation := kv.2.requireConfirmation
          blockedActions := kv.2.blockedActions }
      | none =>
        { tier := "default"
          requireConfirmation :=
            if c.defaults.requireConfirmation then ["delete", "drain"] else []
          blockedActions := c.defaults.blockedActions }

/-! ## Top-level decision flow (src/unnamed/part_003:77-124) -/

/-- One iteration of the --yes or -y extraction loop of main
(src/unnamed/part_003:80-86): a skip token sets the flag, any other token is
appended to the filtered vector. -/
def stripYesStep (acc : List String × Bool) (arg : String) : List String × Bool :=
  if arg == "--yes" || arg == "-y" then (acc.1, true) else (acc.1 ++ [arg], acc.2)

/-- The --yes or -y extraction of main (src/unnamed/part_003:77-87): returns the
filtered argument vector and whether a skip token occurred. -/
def stripYesFlags (args : List String) : List String × Bool :=
  args.foldl stripYesStep ([], false)

/-- The ternary decision of §3 of the specification, as realized by the
control flow of main (src/unnamed/part_003:96-124): Blocked exits before
execution, ConfirmationRequired prompts, otherwise the command runs. -/
inductive Decision where
  | Allowed : Decision
  | Blocked : Decision
  | ConfirmationRequired : Decision
deriving DecidableEq

/-- The policy evaluation of main (src/unnamed/part_003:96-120) for a
classified action, resolved rules, and the skip-confirmation flag. -/
def evaluate (action : String) (rules : ResolvedRules) (skipConfirmation : Bool) : Decision :=
  if isBlocked action rules then Decision.Blocked
  else if requiresConfirmation action rules && !skipConfirmation then
    Decision.ConfirmationRequired
  else Decision.Allowed

/-- Whether main can reach the kubectl.Execute call (src/unnamed/part_003:123)
under a decision: a Blocked decision exits first (src/unnamed/part_003:96-99). -/
def commandMayExecute : Decision → Bool
  | Decision.Blocked => false
  | _ => true

/-- The full decision pipeline of main (src/unnamed/part_003:77-124): strip
the skip tokens, classify the filtered vector, resolve rules for the current
context, then evaluate. -/
def mainDecision (cfg : Config) (context : String) (args : List String) : Decision :=
  let stripped := stripYesFlags args
  evaluate (detectAction stripped.1) (getClusterRules cfg context) stripped.2

/-- Two Config values that denote the same Go configuration: equal defaults
and the same map entries, with the association lists (iteration orders) of
clusters and tiers possibly permuted. -/
def sameGoConfig (c c' : Config) : Prop :=
  c.defaults = c'.defaults ∧ c.clusters.Perm c'.clusters ∧ c.tiers.Perm c'.tiers

/-! ## Concrete configurations used by the witnesses and counterexamples -/

/-- A configuration whose context name "prod-a" is both an exact clusters key
and covered by the "production" tier pattern "prod-*". -/
def exactMatchCfg : Config :=
  { defaults := { requireConfirmation := false, blockedActions := [] }
    clusters := [("prod-a", { tier := "special", requireConfirmation := ["exec"],
                              blockedActions := ["scale"] })]
    tiers := [("production", { patterns := ["prod-*"],
                               requireConfirmation := ["delete", "drain"],
                               blockedActions := ["delete"] })] }

/-- A configuration matching nothing: resolution must fall back to the
defaults. -/
def fallbackCfg : Config :=
  { defaults := { requireConfirmation := true, blockedActions := ["exec"] }
    clusters := []
    tiers := [] }

/-- Two glob cluster keys that both match the context "a-b", in one map
iteration order. -/
def permCfgA : Config :=
  { defaults := { requireConfirmation := false, blockedActions := [] }
    clusters := [("a-*", { tier := "tier-one", requireConfirmation := [], blockedActions := [] }),
                 ("*-b", { tier := "tier-two", requireConfirmation := [], blockedActions := [] })]
    tiers := [] }

/-- The same Go map as permCfgA under the other iteration order. -/
def permCfgB : Config :=
  { defaults := { requireConfirmation := false, blockedActions := [] }
    clusters := [("*-b", { tier := "tier-two", requireConfirmation := [], blockedActions := [] }),
                 ("a-*", { tier := "tier-one", requireConfirmation := [], blockedActions := [] })]
    tiers := [] }

/-- A configuration with an exact cluster key "named-ctx" next to a glob key,
in one iteration order. -/
def permCfgC : Config :=
  { defaults := { requireConfirmation := false, blockedActions := [] }
    clusters := [("named-ctx", { tier := "tier-one", requireConfirmation := [], blockedActions := [] }),
                 ("x-*", { tier := "tier-two", requireConfirmation := [], blockedActions := [] })]
    tiers := [] }

/-- The same Go map as permCfgC under the other iteration order. -/
def permCfgD : Config :=
  { defaults := { requireConfirmation := false, blockedActions := [] }
    clusters := [("x-*", { tier := "tier-two", requireConfirmation := [], blockedActions := [] }),
                 ("named-ctx", { tier := "tier-one", requireConfirmation := [], blockedActions := [] })]
    tiers := [] }

/-! ## Helper lemmas -/

/-- Helper: DetectAction is fully determined by the first non-flag token. -/
theorem detectActionGo_eq_firstToken (args : List String) : ∀ skip : Bool,
    detectActionGo skip args =
      match firstNonFlagToken skip args with
      | some v => (lookupList DestructiveActions v).getD v
      | none => ActionUnknown := by
  induction args with
  | nil => intro skip; cases skip <;> rfl
  | cons arg rest ih =>
    intro skip
    cases skip with
    | true =>
      simpa only [detectActionGo, firstNonFlagToken] using ih false
    | false =>
      simp only [detectActionGo, firstNonFlagToken]
      by_cases h1 : (['-', '-'].isPrefixOf arg.data && arg.data.contains '=') = true
      · simpa only [h1, if_true] using ih false
      · rw [if_neg h1, if_neg h1]
        by_cases h2 : (['-'].isPrefixOf arg.data) = true
        · simpa only [h2, if_true] using ih (flagsWithValues.contains arg)
        · rw [if_neg h2, if_neg h2]
          cases h : lookupList DestructiveActions arg <;> simp [h, Option.getD]

/-- In an association list with pairwise-distinct keys, the key-lookup find?
locates exactly the stored entry for that key. -/
theorem find?_key_of_mem_nodup {β : Type} (l : List (String × β)) (k : String) (r : β)
    (hnd : (l.map Prod.fst).Nodup) (hm : (k, r) ∈ l) :
    l.find? (fun kv => kv.1 == k) = some (k, r) := by
  induction l with
  | nil => cases hm
  | cons hd tl ih =>
    rcases List.mem_cons.mp hm with heq | htl
    · subst heq
      simp [List.find?]
    · have hnd2 : (hd.1 :: tl.map Prod.fst).Nodup := by
        rw [List.map_cons] at hnd; exact hnd
      have hk : hd.1 ≠ k := by
        intro hcontra
        have hfst : k ∈ tl.map Prod.fst := List.mem_map.mpr ⟨(k, r), htl, rfl⟩
        exact (List.nodup_cons.mp hnd2).1 (hcontra ▸ hfst)
      have hnd' : (tl.map Prod.fst).Nodup := (List.nodup_cons.mp hnd2).2
      simp only [List.find?]
      rw [show (hd.1 == k) = false from beq_eq_false_iff_ne.mpr hk]
      exact ih hnd' htl

/-- Accumulator-generalized description of the --yes or -y extraction loop. -/
theorem stripYesFlags_foldl (args : List String) : ∀ (l : List String) (b : Bool),
    args.foldl stripYesStep (l, b) =
      (l ++ args.filter (fun a => !(a == "--yes" || a == "-y")),
       b || args.any (fun a => a == "--yes" || a == "-y")) := by
  induction args with
  | nil => intro l b; simp
  | cons arg rest ih =>
    intro l b
    by_cases h : (arg == "--yes" || arg == "-y") = true
    · simp only [List.foldl_cons, stripYesStep, h, if_true, List.filter_cons, List.any_cons,
        Bool.not_true, ih]
      simp [h]
    · have h' : (arg == "--yes" || arg == "-y") = false := by
        simpa using h
      simp only [List.foldl_cons, stripYesStep, h', Bool.false_eq_true, if_false,
        List.filter_cons, List.any_cons, ih]
      simp [h']

/-! ## Claim theorems -/

/-- C1: for every action tag and resolved rule set, if the action matches an
entry of the blocked list (via matchAction) then the outcome is Blocked and
the wrapped command does not execute — regardless of the confirmation list
and of the caller-supplied skip-confirmation flag, which bypasses only the
confirmation check, never the block check. -/
theorem blocked_takes_priority (action : String) (rules : ResolvedRules)
    (skipConfirmation : Bool)
    (h : ∃ b ∈ rules.blockedActions, matchAction b action = true) :
    evaluate action rules skipConfirmation = Decision.Blocked ∧
      commandMayExecute (evaluate action rules skipConfirmation) = false := by
  have hb : isBlocked action rules = true := by
    rcases h with ⟨b, hbmem, hbm⟩
    exact List.any_eq_true.mpr ⟨b, hbmem, hbm⟩
  refine ⟨?_, ?_⟩ <;> simp [evaluate, hb, commandMayExecute]

/-- Witness for C1: delete is in both the blocked and the confirmation list
and the skip flag is set, yet the decision is Blocked. -/
theorem blocked_takes_priority_witness :
    (∃ b ∈ (ResolvedRules.mk "production" ["delete"] ["delete"]).blockedActions,
        matchAction b "delete" = true) ∧
      evaluate "delete" (ResolvedRules.mk "production" ["delete"] ["delete"]) true =
        Decision.Blocked ∧
      commandMayExecute
        (evaluate "delete" (ResolvedRules.mk "production" ["delete"] ["delete"]) true) =
          false :=
  ⟨⟨"delete", by decide, by decide⟩,
    blocked_takes_priority "delete" (ResolvedRules.mk "production" ["delete"] ["delete"]) true
      ⟨"delete", by decide, by decide⟩⟩

/-- C2: if the context name is literally a key of clusters (with the Go map's
pairwise-distinct keys), GetClusterRules returns that entry's tier,
confirmation list, and blocked list verbatim — glob cluster keys, tier
patterns, and the default fallback are never consulted, so an exact match
always beats a tier pattern. -/
theorem exact_cluster_match_first (c : Config) (context : String) (r : ClusterRules)
    (hnd : (c.clusters.map Prod.fst).Nodup) (hm : (context, r) ∈ c.clusters) :
    getClusterRules c context =
      { tier := r.tier
        requireConfirmation := r.requireConfirmation
        blockedActions := r.blockedActions } := by
  have hf := find?_key_of_mem_nodup c.clusters context r hnd hm
  simp only [getClusterRules, hf]

/-- Witness for C2: "prod-a" is an exact clusters key and also matches the
"production" tier pattern "prod-*"; the exact entry's rules are returned,
never the tier's. -/
theorem exact_cluster_match_first_witness :
    (exactMatchCfg.clusters.map Prod.fst).Nodup ∧
      ("prod-a", ClusterRules.mk "special" ["exec"] ["scale"]) ∈ exactMatchCfg.clusters ∧
      matchGlob "prod-*" "prod-a" = true ∧
      getClusterRules exactMatchCfg "prod-a" = ResolvedRules.mk "special" ["exec"] ["scale"] :=
  ⟨by decide, by decide, by decide,
    exact_cluster_match_first exactMatchCfg "prod-a" (ClusterRules.mk "special" ["exec"] ["scale"])
      (by decide) (by decide)⟩

/-- C3: whenever the first non-flag token of the argument vector (after
skipping value-consuming flags, their values, and --flag=value units) is one
of the destructive verbs, DetectAction returns the mapped canonical action
tag, no matter how many value-consuming flags precede it. -/
theorem detect_destructive_verb (args : List String) (v a : String)
    (h1 : firstNonFlagToken false args = some v)
    (h2 : lookupList DestructiveActions v = some a) :
    detectAction args = a := by
  have hspec := detectActionGo_eq_firstToken args false
  rw [detectAction, hspec, h1]
  simp [h2]

/-- Witness for C3: two value-consuming flags precede "delete", and
"uncordon" maps to the cordon tag. -/
theorem detect_destructive_verb_witness :
    (firstNonFlagToken false ["-n", "default", "-l", "app=test", "delete", "pods"] =
        some "delete" ∧
      detectAction ["-n", "default", "-l", "app=test", "delete", "pods"] = "delete") ∧
    (firstNonFlagToken false ["uncordon", "node-1"] = some "uncordon" ∧
      lookupList DestructiveActions "uncordon" = some "cordon" ∧
      detectAction ["uncordon", "node-1"] = "cordon") :=
  ⟨⟨rfl, detect_destructive_verb _ "delete" "delete" rfl rfl⟩,
    ⟨rfl, rfl, detect_destructive_verb _ "uncordon" "cordon" rfl rfl⟩⟩

/-- C4: rule-token-to-action matching is case-insensitive (both sides are
lower-cased) and expands exactly the aliases drain-covers-cordon,
edit-covers-patch, and apply-covers-create; every other rule token,
including delete, scale, exec, and rollout, matches only by (case-
insensitive) equality. -/
theorem matchAction_characterization (rule action : String) :
    matchAction rule action = true ↔
      (toLower rule = toLower action ∨
        (toLower rule = ActionDrain ∧
          (toLower action = ActionDrain ∨ toLower action = ActionCordon)) ∨
        (toLower rule = ActionEdit ∧
          (toLower action = ActionEdit ∨ toLower action = ActionPatch)) ∨
        (toLower rule = ActionApply ∧
          (toLower action = ActionApply ∨ toLower action = ActionCreate))) := by
  unfold matchAction
  generalize toLower rule = r
  generalize toLower action = a
  dsimp only
  split_ifs with h1 h2 h3 h4 h5 h6 h7 h8 <;>
    simp_all [ActionDrain, ActionDelete, ActionScale, ActionEdit, ActionApply,
      ActionExec, ActionRollout, ActionCordon, ActionPatch, ActionCreate, eq_comm]

/-- Witness for C4: the alias and case-insensitivity examples of the
specification, plus two non-aliases. -/
theorem matchAction_characterization_witness :
    matchAction "DELETE" "delete" = true ∧ matchAction "drain" "cordon" = true ∧
      matchAction "apply" "create" = true ∧
      matchAction "delete" "drain" = false ∧ matchAction "cordon" "drain" = false :=
  ⟨(matchAction_characterization "DELETE" "delete").mpr (Or.inl (by decide)),
    (matchAction_characterization "drain" "cordon").mpr (Or.inr (Or.inl (by decide))),
    (matchAction_characterization "apply" "create").mpr
      (Or.inr (Or.inr (Or.inr (by decide)))),
    by decide, by decide⟩

/-- C5: a context matching no clusters entry (exact or glob) and no tier
pattern resolves to tier "default", with the defaults' blocked list, and a
confirmation list of delete and drain exactly when defaults'
require_confirmation is set. -/
theorem default_fallback (c : Config) (context : String)
    (h1 : ∀ kv ∈ c.clusters, kv.1 ≠ context)
    (h2 : ∀ kv ∈ c.clusters, matchGlob kv.1 context = false)
    (h3 : ∀ kv ∈ c.tiers, ∀ p ∈ kv.2.patterns, matchGlob p context = false) :
    getClusterRules c context =
      { tier := "default"
        requireConfirmation :=
          if c.defaults.requireConfirmation then ["delete", "drain"] else []
        blockedActions := c.defaults.blockedActions } := by
  have f1 : c.clusters.find? (fun kv => kv.1 == context) = none := by
    rw [List.find?_eq_none]
    intro kv hkv
    simpa using h1 kv hkv
  have f2 : c.clusters.find? (fun kv => matchGlob kv.1 context) = none := by
    rw [List.find?_eq_none]
    intro kv hkv
    simp [h2 kv hkv]
  have f3 : c.tiers.find? (fun kv => kv.2.patterns.any (fun p => matchGlob p context)) = none := by
    rw [List.find?_eq_none]
    intro kv hkv
    simp only [List.any_eq_true, not_exists]
    intro p hp
    exact absurd hp.2 (by simp [h3 kv hkv p hp.1])
  simp only [getClusterRules, f1, f2, f3]

/-- Witness for C5: an unmatched context under defaults with
require_confirmation set resolves to tier "default" with confirmation set
delete, drain and the defaults' blocked list. -/
theorem default_fallback_witness :
    getClusterRules fallbackCfg "my-context" =
      ResolvedRules.mk "default" ["delete", "drain"] ["exec"] := by
  have h := default_fallback fallbackCfg "my-context"
    (by intro kv hkv; cases hkv) (by intro kv hkv; cases hkv)
    (by intro kv hkv; cases hkv)
  simpa [fallbackCfg] using h

/-- Counterexample to C6 as stated: the pattern consisting of a single
opening bracket fails glob compilation, and the context name equal
character-for-character to that pattern does not match it — the fallback is
filepath.Match (which also rejects this pattern, yielding false), not a
literal string comparison. -/
theorem malformed_glob_literal_counterexample :
    (globCompile "[").isNone = true ∧ "[" = "[" ∧ matchGlob "[" "[" = false := by
  refine ⟨?_, rfl, ?_⟩ <;> decide

/-- C6 as amended: for every pattern whose glob compilation fails, matchGlob
degrades to path/filepath.Match semantics with the error discarded — so the
single pattern never errors the resolution, but a context equal to the
malformed pattern matches only when filepath.Match accepts it. -/
theorem malformed_glob_falls_back_to_filepath (pattern str : String)
    (h : globCompile pattern = none) :
    matchGlob pattern str = (filepathMatch pattern str).getD false := by
  simp only [matchGlob, h]

/-- Witness for the amended C6: a pattern made of an opening terms character
and a letter fails glob compilation, falls back to filepath.Match, and there
matches itself literally; the single-bracket pattern does not. -/
theorem malformed_glob_falls_back_to_filepath_witness :
    globCompile "\x7ba" = none ∧
      matchGlob "\x7ba" "\x7ba" = (filepathMatch "\x7ba" "\x7ba").getD false ∧
      matchGlob "\x7ba" "\x7ba" = true ∧
      matchGlob "[" "[" = false :=
  ⟨rfl, malformed_glob_falls_back_to_filepath "\x7ba" "\x7ba" rfl, by decide, by decide⟩

/-- Counterexample to C7 as stated: the two Config values denote the same Go
configuration (same defaults, same cluster and tier map entries, permuted
iteration order), yet resolution of the context "a-b" — which glob-matches
both cluster keys — returns different results, so two evaluations of
GetClusterRules in one Go process need not yield identical values. -/
theorem resolution_order_dependent_counterexample :
    sameGoConfig permCfgA permCfgB ∧
      getClusterRules permCfgA "a-b" ≠ getClusterRules permCfgB "a-b" := by
  constructor
  · exact ⟨rfl, by decide, List.Perm.refl _⟩
  · decide

/-- C7 as amended: resolution is a pure function of the Config value — for a
fixed iteration order it is deterministic — and it is independent of the map
iteration order whenever the context name is an exact clusters key; only
glob tie-breaks (multiple matching patterns) depend on the order. -/
theorem resolution_deterministic_for_exact_key (c c' : Config) (context : String)
    (r : ClusterRules) (hsame : sameGoConfig c c')
    (hnd : (c.clusters.map Prod.fst).Nodup)
    (hm : (context, r) ∈ c.clusters) :
    getClusterRules c context = getClusterRules c' context := by
  obtain ⟨hdef, hcl, htiers⟩ := hsame
  have hm' : (context, r) ∈ c'.clusters := hcl.mem_iff.mp hm
  have hnd' : (c'.clusters.map Prod.fst).Nodup := ((hcl.map Prod.fst).nodup_iff).mp hnd
  have hf := find?_key_of_mem_nodup c.clusters context r hnd hm
  have hf' := find?_key_of_mem_nodup c'.clusters context r hnd' hm'
  simp only [getClusterRules, hf, hf']

/-- Witness for the amended C7: permuting the cluster map's iteration order
does not change resolution for the exact key "named-ctx". -/
theorem resolution_deterministic_for_exact_key_witness :
    sameGoConfig permCfgC permCfgD ∧
      (permCfgC.clusters.map Prod.fst).Nodup ∧
      ("named-ctx", ClusterRules.mk "tier-one" [] []) ∈ permCfgC.clusters ∧
      getClusterRules permCfgC "named-ctx" = getClusterRules permCfgD "named-ctx" :=
  ⟨⟨rfl, by decide, List.Perm.refl _⟩, by decide, by decide,
    resolution_deterministic_for_exact_key permCfgC permCfgD "named-ctx"
      (ClusterRules.mk "tier-one" [] [])
      ⟨rfl, by decide, List.Perm.refl _⟩ (by decide) (by decide)⟩

/-- C8: an argument vector with no non-flag token under the scan (including
the empty vector and vectors of flags and their values) classifies as
unknown, and a first non-flag token that is not a recognized destructive
verb is returned verbatim as a passthrough pseudo-action. -/
theorem detect_passthrough_and_unknown (args : List String) :
    (firstNonFlagToken false args = none → detectAction args = ActionUnknown) ∧
    (∀ v, firstNonFlagToken false args = some v →
      lookupList DestructiveActions v = none → detectAction args = v) := by
  have hspec := detectActionGo_eq_firstToken args false
  constructor
  · intro h; rw [detectAction, hspec, h]
  · intro v h1 h2; rw [detectAction, hspec, h1]; simp [h2]

/-- Witness for C8: a flags-only vector yields unknown; the non-destructive
verb "get" passes through verbatim. -/
theorem detect_passthrough_and_unknown_witness :
    (firstNonFlagToken false ["-n", "default"] = none ∧
      detectAction ["-n", "default"] = "unknown") ∧
    (firstNonFlagToken false ["get", "pods"] = some "get" ∧
      lookupList DestructiveActions "get" = none ∧
      detectAction ["get", "pods"] = "get") :=
  ⟨⟨rfl, (detect_passthrough_and_unknown ["-n", "default"]).1 rfl⟩,
    ⟨rfl, rfl, (detect_passthrough_and_unknown ["get", "pods"]).2 "get" rfl rfl⟩⟩

/-- C9: main removes every occurrence of the literal tokens --yes and -y at
any position of the argument vector, preserves all other tokens in their
original relative order (a filter), and records the skip flag exactly when
at least one such token occurred; the filtered vector never contains the
skip tokens. -/
theorem strip_yes_flags_spec (args : List String) :
    (stripYesFlags args).1 = args.filter (fun a => !(a == "--yes" || a == "-y")) ∧
    ((stripYesFlags args).2 = true ↔ ∃ a ∈ args, a = "--yes" ∨ a = "-y") ∧
    (∀ a ∈ (stripYesFlags args).1, a ≠ "--yes" ∧ a ≠ "-y") := by
  have h := stripYesFlags_foldl args [] false
  refine ⟨?_, ?_, ?_⟩
  · rw [stripYesFlags, h]; simp
  · rw [stripYesFlags, h]
    simp [List.any_eq_true]
  · intro a ha
    rw [stripYesFlags, h] at ha
    simp only [List.nil_append] at ha
    have := (List.mem_filter.mp ha).2
    simp at this
    exact this

/-- Witness for C9: a -y token sitting where a value of the preceding
value-consuming flag -n would be expected is still stripped, and the skip
flag is recorded. -/
theorem strip_yes_flags_spec_witness :
    (stripYesFlags ["-n", "-y", "delete", "pods", "--yes"]).1 = ["-n", "delete", "pods"] ∧
      (stripYesFlags ["-n", "-y", "delete", "pods", "--yes"]).2 = true :=
  ⟨by decide,
    (strip_yes_flags_spec ["-n", "-y", "delete", "pods", "--yes"]).2.1.mpr
      ⟨"-y", by simp, Or.inr rfl⟩⟩

/-- C10: GetActionSeverity is total with range high, medium, low, none —
high for exactly delete and drain, medium for exactly scale, cordon, edit,
patch, and rollout, low for exactly apply and create, and none for every
other string — and DescribeAction returns its argument unchanged for every
string outside the ten canonical action tags.  (Totality of the range holds
because the function is an if-chain ending in "none"; the four
characterizing equivalences below cover it.) -/
theorem severity_and_describe_total (action : String) :
    (getActionSeverity action = "high" ↔ (action = ActionDelete ∨ action = ActionDrain)) ∧
    (getActionSeverity action = "medium" ↔
      (action = ActionScale ∨ action = ActionCordon ∨ action = ActionEdit ∨
        action = ActionPatch ∨ action = ActionRollout)) ∧
    (getActionSeverity action = "low" ↔ (action = ActionApply ∨ action = ActionCreate)) ∧
    (getActionSeverity action = "none" ↔
      ¬(action = ActionDelete ∨ action = ActionDrain ∨ action = ActionScale ∨
        action = ActionCordon ∨ action = ActionEdit ∨ action = ActionPatch ∨
        action = ActionRollout ∨ action = ActionApply ∨ action = ActionCreate)) ∧
    (action = ActionDelete ∨ action = ActionDrain ∨ action = ActionCordon ∨
      action = ActionScale ∨ action = ActionEdit ∨ action = ActionPatch ∨
      action = ActionApply ∨ action = ActionCreate ∨ action = ActionExec ∨
      action = ActionRollout ∨ describeAction action = action) := by
  refine ⟨?_, ?_, ?_, ?_, ?_⟩ <;>
    simp only [getActionSeverity, describeAction] <;>
    split_ifs <;> (try casesm* _ ∨ _) <;> subst_vars <;>
      simp_all [ActionDelete, ActionDrain, ActionScale, ActionCordon, ActionEdit,
        ActionPatch, ActionRollout, ActionApply, ActionCreate, ActionExec]

/-- Witness for C10: concrete severities, including none for the passthrough
verb "get" and for "unknown", and DescribeAction acting as the identity
outside the canonical tags. -/
theorem severity_and_describe_total_witness :
    getActionSeverity "delete" = "high" ∧ getActionSeverity "cordon" = "medium" ∧
      getActionSeverity "create" = "low" ∧ getActionSeverity "get" = "none" ∧
      getActionSeverity "unknown" = "none" ∧ describeAction "get" = "get" :=
  ⟨(severity_and_describe_total "delete").1.mpr (Or.inl rfl),
    (severity_and_describe_total "cordon").2.1.mpr (Or.inr (Or.inl rfl)),
    (severity_and_describe_total "create").2.2.1.mpr (Or.inr rfl),
    (severity_and_describe_total "get").2.2.2.1.mpr (by decide),
    (severity_and_describe_total "unknown").2.2.2.1.mpr (by decide),
    by decide⟩
